import Mathlib

/-!
Verification of the order-allocation and payment-request lifecycle subsystem
of the suzaa core-deploy repository, as a shallow embedding.

JavaScript strings are modelled as lists of characters (`Str`); machine
numbers that the code uses as integers are modelled as `Nat`/`Int`; the
relational store is a list of rows; the Redis counter store is an
association list.  Fallible operations return `Except`.
-/

/-- JavaScript strings, modelled as lists of characters. -/
abbrev Str := List Char

/-- The decimal digit character for a value below ten, as produced by
JavaScript number-to-string conversion. -/
def digitChar (n : Nat) : Char := Char.ofNat (48 + n)

/-- Numeric value of a decimal digit character. -/
def digitVal (c : Char) : Nat := c.toNat - 48

/-- Recursion core of the decimal rendering; the fuel argument only bounds
the recursion depth and is at least the number being rendered. -/
def toDecAux (fuel n : Nat) : Str :=
  match fuel with
  | 0 => [digitChar n]
  | fuel + 1 =>
    if n < 10 then [digitChar n]
    else toDecAux fuel (n / 10) ++ [digitChar (n % 10)]

/-- Decimal rendering of a natural number (JavaScript num.toString()). -/
def toDecString (n : Nat) : Str := toDecAux n n

/-- JavaScript String.prototype.padStart with a one-character pad string. -/
def padStart (len : Nat) (c : Char) (s : Str) : Str :=
  List.replicate (len - s.length) c ++ s

/-- formatOrderNumber (orderNumber.ts): order number with leading zeros,
1 gives "0001" and 42 gives "0042". -/
def formatOrderNumber (num : Nat) : Str :=
  padStart 4 '0' (toDecString num)

/-- generateLinkId (orderNumber.ts): the externally visible composite
identifier, slug then order date then zero-padded order number, separated
by slashes. -/
def generateLinkId (slug : Str) (orderDate : Str) (orderNumber : Nat) : Str :=
  slug ++ '/' :: (orderDate ++ '/' :: formatOrderNumber orderNumber)

/-- JavaScript String.prototype.split at the slash separator. -/
def splitOnSlash (s : Str) : List Str :=
  match s with
  | [] => [[]]
  | c :: rest =>
    if c = '/' then [] :: splitOnSlash rest
    else
      match splitOnSlash rest with
      | [] => [[c]]
      | t :: ts => (c :: t) :: ts

/-- Parse an all-digit string as a decimal number (the numeric read-back of
the third linkId segment). -/
def parseDecimal (s : Str) : Nat :=
  s.foldl (fun acc c => 10 * acc + digitVal c) 0

/-- Parse a linkId back into its slug, order-date and order-number segments
by splitting at the slash separators (the round-trip direction of the
external contract). -/
def parseLinkId (s : Str) : Option (Str × Str × Nat) :=
  match splitOnSlash s with
  | [slug, d, num] => some (slug, d, parseDecimal num)
  | _ => none

/-- Lifecycle status values stored on a payment request
(PaymentRequest.ts, enum PaymentStatus). -/
inductive PaymentStatus
  | PENDING | PAID | EXPIRED | CANCELLED

deriving DecidableEq, Repr

/-- Settlement status vocabulary of the domain entity
(PaymentRequest.ts, enum SettlementStatus).  The entity enum has five
values; the HTTP layer additionally accepts CANCELED and CLAIMED_PAID. -/
inductive SettlementStatus
  | PENDING | PAID | SETTLED | REJECTED | REISSUED

deriving DecidableEq, Repr

/-- The validTransitions table of PaymentRequest.updateSettlementStatus. -/
def validTransitions : SettlementStatus → List SettlementStatus
  | .PENDING => [.PAID, .REJECTED]
  | .PAID => [.SETTLED, .REJECTED]
  | .SETTLED => [.REISSUED]
  | .REJECTED => [.REISSUED]
  | .REISSUED => []

/-- The BadRequestError thrown by updateSettlementStatus; its message names
the current and the attempted settlement states. -/
structure InvalidTransitionError where
  current : SettlementStatus
  attempted : SettlementStatus

deriving DecidableEq, Repr

/-- PaymentRequest.updateSettlementStatus: the transition succeeds exactly
when the requested status is listed for the current one, otherwise the
entity throws an error naming both states. -/
def updateSettlementStatus (current newStatus : SettlementStatus) :
    Except InvalidTransitionError SettlementStatus :=
  if newStatus ∈ validTransitions current then .ok newStatus
  else .error ⟨current, newStatus⟩

/-- The settlement vocabulary accepted by PATCH /requests/:id/settlement
(part_014): seven string values, including CANCELED and CLAIMED_PAID. -/
def settlementVocab : List Str :=
  ["PENDING", "PAID", "SETTLED", "REJECTED", "REISSUED", "CANCELED",
    "CLAIMED_PAID"].map String.toList

/-- PATCH /requests/:id/settlement (part_014): the route validates only that
the requested value belongs to the vocabulary list and then writes it to the
row unconditionally; the stored settlement status is not consulted. -/
def patchSettlement (stored requested : Str) : Except Str Str :=
  if requested ∈ settlementVocab then .ok requested
  else .error ("Invalid settlement status".toList)

/-- Days-since-epoch to proleptic Gregorian civil date, the calendar
arithmetic performed by Intl.DateTimeFormat and luxon (Howard Hinnant's
civil-from-days algorithm, specialised to days at or after 1970-01-01).
Returns (year, month, day). -/
def civilFromDays (z0 : Nat) : Nat × Nat × Nat :=
  let z := z0 + 719468
  let era := z / 146097
  let doe := z % 146097
  let yoe := (doe - doe / 1460 + doe / 36524 - doe / 146096) / 365
  let y := yoe + era * 400
  let doy := doe - (365 * yoe + yoe / 4 - yoe / 100)
  let mp := (5 * doy + 2) / 153
  let d := doy - (153 * mp + 2) / 5 + 1
  let m := if mp < 10 then mp + 3 else mp - 9
  (if m ≤ 2 then y + 1 else y, m, d)

/-- Proleptic Gregorian civil date to days since epoch (the inverse
direction, days-from-civil), used for the calendar-month boundary that
luxon computes for the monthly quota window. -/
def daysFromCivil (y m d : Nat) : Nat :=
  let y2 := if m ≤ 2 then y - 1 else y
  let era := y2 / 400
  let yoe := y2 % 400
  let doy := (153 * (if 2 < m then m - 3 else m + 9) + 2) / 5 + d - 1
  let doe := yoe * 365 + yoe / 4 - yoe / 100 + doy
  era * 146097 + doe - 719468

/-- Render a civil date as the eight-character YYYYMMDD string (the year is
formatted without padding as Intl numeric formatting does; months and days
are two-digit). -/
def formatYYYYMMDD (ymd : Nat × Nat × Nat) : Str :=
  toDecString ymd.1 ++ padStart 2 '0' (toDecString ymd.2.1) ++
    padStart 2 '0' (toDecString ymd.2.2)

/-- getCurrentOrderDate (orderNumber.ts): the YYYYMMDD calendar date of the
instant nowSec (seconds since epoch) evaluated in the merchant's IANA
timezone.  The timezone database lookup that Intl.DateTimeFormat performs is
modelled by the UTC offset (in minutes) that the zone has at this instant
(Asia/Tokyo: 540); the calendar arithmetic is Gregorian on the
offset-shifted instant. -/
def getCurrentOrderDate (nowSec : Nat) (offsetMin : Int) : Str :=
  let localSec : Int := (nowSec : Int) + offsetMin * 60
  formatYYYYMMDD (civilFromDays (localSec.fdiv 86400).toNat)

/-- The order-date computation of
CreatePaymentRequestUseCase.generateOrderDetails: the UTC calendar date of
the instant, from toISOString with the separators stripped — the merchant
timezone is not consulted (the source comment reads "simplified - using UTC
for now"). -/
def generateOrderDetailsDate (nowSec : Nat) : Str :=
  formatYYYYMMDD (civilFromDays (nowSec / 86400))

/-- The allocation step of
CreatePaymentRequestUseCase.generateOrderDetails: next is the last order
number plus one (or 1 when none exists), failing only above 99999. -/
def generateOrderDetailsNumber (lastOrderNumber : Option Nat) : Except Str Nat :=
  let orderNumber := match lastOrderNumber with
    | some n => n + 1
    | none => 1
  if orderNumber > 99999 then .error ("Daily order limit reached (99999)".toList)
  else .ok orderNumber

/-- One persisted payment_requests row (the columns this core reads). -/
structure Row where
  merchantId : Nat
  orderDate : Str
  orderNumber : Nat
  linkId : Str
  amountFiat : Int
  status : Str
  settlementStatus : Str
  createdAt : Nat
  expiresAt : Nat

deriving DecidableEq, Repr

/-- The payment_requests table. -/
abbrev Store := List Row

/-- The findFirst query of getNextOrderNumber (orderNumber.ts): highest
orderNumber among the rows of (merchantId, orderDate), or none when the
merchant has no row on that date. -/
def maxOrderNumber (s : Store) (mId : Nat) (d : Str) : Option Nat :=
  let nums := (s.filter fun r => decide (r.merchantId = mId ∧ r.orderDate = d)).map
    Row.orderNumber
  if nums.isEmpty then none else some (nums.foldr max 0)

/-- Errors surfaced by the creation flow (part_017 reports them as
success:false messages; the constructors keep the distinctions). -/
inductive CreateErr
  | validationAmount
  | merchantNotFound
  | suspended
  | rateLimitExceeded
  | invalidExpiry
  | monthlyQuotaExceeded (limit : Nat)
  | dailyLimitExceeded
  | orderConflict

deriving DecidableEq, Repr

/-- getNextOrderNumber (orderNumber.ts): previous maximum plus one (1 when
no row exists); above 9999 the allocation fails with the daily-limit error
("Daily order limit reached (9999)"). -/
def getNextOrderNumber (s : Store) (mId : Nat) (d : Str) : Except CreateErr Nat :=
  let nextNumber := match maxOrderNumber s mId d with
    | some n => n + 1
    | none => 1
  if nextNumber > 9999 then .error .dailyLimitExceeded else .ok nextNumber

/-- Modelled from the spec: the uniqueness constraints of the
payment_requests table — linkId unique and (merchantId, orderDate,
orderNumber) unique.  schema.prisma is not under src/; the spec (and
docs/PAYMENT_REQUESTS.md) record both constraints, and an insert violating
either fails with Prisma error P2002. -/
def violatesUnique (s : Store) (row : Row) : Bool :=
  s.any fun r => decide (r.linkId = row.linkId ∨
    (r.merchantId = row.merchantId ∧ r.orderDate = row.orderDate ∧
      r.orderNumber = row.orderNumber))

/-- tx.paymentRequest.create: appends the row, or fails with P2002 (mapped
by the caller to the order-conflict message) when a uniqueness constraint is
violated. -/
def insertRow (s : Store) (row : Row) : Except CreateErr Store :=
  if violatesUnique s row then .error .orderConflict else .ok (s ++ [row])

/-- Merchant fields read by createPaymentRequest (part_017).  The IANA
timezone is carried as the UTC offset in minutes the zone resolves to at
the instants under consideration; suspended models suspendedAt being
non-null. -/
structure Merchant where
  id : Nat
  slug : Str
  tzOffsetMin : Int
  maxBuyerOrdersPerHour : Nat
  suspended : Bool
  paymentLinkMonthlyLimit : Nat
  defaultPaymentExpiryMinutes : Option Nat

deriving DecidableEq, Repr

/-- A Redis counter entry for a buyer-orders key: the stored count and the
absolute instant at which the key expires. -/
structure RLEntry where
  count : Nat
  expiresAt : Nat

deriving DecidableEq, Repr

/-- The Redis keyspace restricted to the buyer-orders keys, keyed by
(merchantId, buyerIp). -/
abbrev RLStore := List ((Nat × Str) × RLEntry)

/-- Look a key up in the counter store. -/
def rlLookup (rl : RLStore) (key : Nat × Str) : Option RLEntry :=
  match rl with
  | [] => none
  | (k, e) :: rest => if k = key then some e else rlLookup rest key

/-- Write a key in the counter store, replacing any previous entry. -/
def rlSet (rl : RLStore) (key : Nat × Str) (e : RLEntry) : RLStore :=
  match rl with
  | [] => [(key, e)]
  | (k, e0) :: rest =>
    if k = key then (key, e) :: rest else (k, e0) :: rlSet rest key e

/-- canBuyerCreateOrder (buyerRateLimit.ts): reads the counter for
(merchantId, buyerIp) — a key whose expiry has passed reads as absent, so the
count is 0 — and allows the order exactly when the current count is below
maxOrdersPerHour, also reporting the remaining allowance.  The counter store
is not modified. -/
def canBuyerCreateOrder (rl : RLStore) (mId : Nat) (buyerIp : Str)
    (maxOrdersPerHour : Nat) (now : Nat) : Bool × Nat :=
  let currentCount := match rlLookup rl (mId, buyerIp) with
    | some e => if now < e.expiresAt then e.count else 0
    | none => 0
  if currentCount ≥ maxOrdersPerHour then (false, 0)
  else (true, maxOrdersPerHour - currentCount)

/-- recordBuyerOrder (buyerRateLimit.ts): Redis INCR on the key — an absent
or expired key restarts at count 1 — followed by EXPIRE 3600 exactly when
the incremented count is 1, fixing the window at one hour from the first
request in it. -/
def recordBuyerOrder (rl : RLStore) (mId : Nat) (buyerIp : Str) (now : Nat) :
    RLStore :=
  let key := (mId, buyerIp)
  match rlLookup rl key with
  | some e =>
    if now < e.expiresAt then rlSet rl key ⟨e.count + 1, e.expiresAt⟩
    else rlSet rl key ⟨1, now + 3600⟩
  | none => rlSet rl key ⟨1, now + 3600⟩

/-- Days in a Gregorian month. -/
def daysInMonth (y m : Nat) : Nat :=
  if m = 2 then (if y % 4 = 0 ∧ (y % 100 ≠ 0 ∨ y % 400 = 0) then 29 else 28)
  else if m = 4 ∨ m = 6 ∨ m = 9 ∨ m = 11 then 30 else 31

/-- luxon DateTime.plus of one month applied to a UTC-represented instant
(the nextMonthStartUtc computation of part_017): the civil date advances one
month keeping its day-of-month — clamped to the length of the target
month — and its time of day. -/
def plusOneMonthUtc (instant : Int) : Int :=
  let days := (instant.fdiv 86400).toNat
  let tod := instant - (days : Int) * 86400
  let ymd := civilFromDays days
  let y2 := if ymd.2.1 = 12 then ymd.1 + 1 else ymd.1
  let m2 := if ymd.2.1 = 12 then 1 else ymd.2.1 + 1
  (daysFromCivil y2 m2 (min ymd.2.2 (daysInMonth y2 m2)) : Int) * 86400 + tod

/-- The monthly-quota window [monthStartUtc, nextMonthStartUtc) of part_017
for a zone at a fixed offset: monthStartUtc is the merchant-zone start of
month converted to UTC, and the upper bound adds one month to that instant
on its UTC representation.  For a zone ahead of UTC the month start
converts to the last day of the previous UTC month, so the day-clamped
addition can end the window up to three days before the true start of the
next local month. -/
def monthWindow (nowSec : Nat) (offsetMin : Int) : Int × Int :=
  let localDays := (((nowSec : Int) + offsetMin * 60).fdiv 86400).toNat
  let ymd := civilFromDays localDays
  let monthStartUtc : Int :=
    (daysFromCivil ymd.1 ymd.2.1 1 : Int) * 86400 - offsetMin * 60
  (monthStartUtc, plusOneMonthUtc monthStartUtc)

/-- The monthly-quota count of part_017: rows of the merchant whose
createdAt lies in the month window. -/
def monthlyCount (s : Store) (mId : Nat) (nowSec : Nat) (offsetMin : Int) : Nat :=
  let w := monthWindow nowSec offsetMin
  (s.filter fun r => decide (r.merchantId = mId ∧
    w.1 ≤ (r.createdAt : Int) ∧ (r.createdAt : Int) < w.2)).length

/-- The request payload of createPaymentRequest (part_017). -/
structure CreateInput where
  merchantId : Nat
  amountFiat : Int
  expiryMinutes : Option Nat
  createdBy : Str
  buyerIp : Option Str

deriving DecidableEq, Repr

/-- The expiry part_017 settles on: the request value, else the merchant
default, else 60. -/
def effectiveExpiry (input : CreateInput) (m : Merchant) : Nat :=
  match input.expiryMinutes, m.defaultPaymentExpiryMinutes with
  | some e, _ => e
  | none, some d => d
  | none, none => 60

/-- The allowed expiry values of part_017. -/
def allowedExpiries : List Nat := [15, 30, 60, 120]

/-- The row part_017 hands to tx.paymentRequest.create. -/
def buildRow (m : Merchant) (input : CreateInput) (orderDate : Str)
    (orderNumber : Nat) (nowSec : Nat) (effExpiry : Nat) : Row :=
  { merchantId := input.merchantId
    orderDate := orderDate
    orderNumber := orderNumber
    linkId := generateLinkId m.slug orderDate orderNumber
    amountFiat := input.amountFiat
    status := "PENDING".toList
    settlementStatus := "PENDING".toList
    createdAt := nowSec
    expiresAt := nowSec + effExpiry * 60 }

/-- The $transaction callback of part_017: the monthly-quota count and check
(skipped when the limit is zero), then the order date in the merchant
timezone, the next order number (whose findFirst read runs against obs, the
store that query observed — obs = cur for an uncontended run), the linkId,
and the insert under the uniqueness constraints.  Any error aborts the
transaction, persisting nothing. -/
def createTx (m : Merchant) (input : CreateInput) (obs cur : Store)
    (nowSec : Nat) (effExpiry : Nat) : Except CreateErr (Store × Row) :=
  if 0 < m.paymentLinkMonthlyLimit ∧
      m.paymentLinkMonthlyLimit ≤ monthlyCount cur input.merchantId nowSec m.tzOffsetMin
  then .error (.monthlyQuotaExceeded m.paymentLinkMonthlyLimit)
  else
    match getNextOrderNumber obs input.merchantId
        (getCurrentOrderDate nowSec m.tzOffsetMin) with
    | .error e => .error e
    | .ok orderNumber =>
      match insertRow cur (buildRow m input
          (getCurrentOrderDate nowSec m.tzOffsetMin) orderNumber nowSec effExpiry) with
      | .error e => .error e
      | .ok cur2 =>
        .ok (cur2, buildRow m input (getCurrentOrderDate nowSec m.tzOffsetMin)
          orderNumber nowSec effExpiry)

/-- The buyer rate-limit gate of part_017: present buyerIp, createdBy buyer,
and canBuyerCreateOrder not allowed. -/
def rateRejected (input : CreateInput) (m : Merchant) (rl : RLStore)
    (now : Nat) : Bool :=
  match input.buyerIp with
  | some ip => decide (input.createdBy = "buyer".toList) &&
      !(canBuyerCreateOrder rl m.id ip m.maxBuyerOrdersPerHour now).1
  | none => false

/-- The counter store after a committed creation: recordBuyerOrder exactly
for a buyer-created request with a source address, else unchanged. -/
def rlAfter (input : CreateInput) (m : Merchant) (rl : RLStore)
    (now : Nat) : RLStore :=
  match input.buyerIp with
  | some ip =>
    if input.createdBy = "buyer".toList then recordBuyerOrder rl m.id ip now
    else rl
  | none => rl

/-- createPaymentRequest (part_017): amount validation, merchant lookup,
suspension check, the read-only buyer rate-limit check (before the
transaction), expiry validation, the transaction, and — only after the
transaction has committed — the rate-limit increment. -/
def createPaymentRequest (merchantQ : Option Merchant) (input : CreateInput)
    (obs cur : Store) (rl : RLStore) (nowSec : Nat) :
    Except CreateErr (Store × RLStore × Row) :=
  if input.amountFiat ≤ 0 then .error .validationAmount
  else
    match merchantQ with
    | none => .error .merchantNotFound
    | some m =>
      if m.suspended then .error .suspended
      else if rateRejected input m rl nowSec then .error .rateLimitExceeded
      else if effectiveExpiry input m ∉ allowedExpiries then .error .invalidExpiry
      else
        match createTx m input obs cur nowSec (effectiveExpiry input m) with
        | .error e => .error e
        | .ok txr => .ok (txr.1, rlAfter input m rl nowSec, txr.2)

/-- The observable outcome of a creation call: the table and the counter
store after the call, and the created row or the error.  A failed call
leaves both stores as they were: the transaction rolls back and the
rate-limit increment is skipped. -/
def runCreate (merchantQ : Option Merchant) (input : CreateInput)
    (obs cur : Store) (rl : RLStore) (nowSec : Nat) :
    Store × RLStore × Except CreateErr Row :=
  match createPaymentRequest merchantQ input obs cur rl nowSec with
  | .ok out => (out.1, out.2.1, .ok out.2.2)
  | .error e => (cur, rl, .error e)

/-- The response record assembled by GET /payment/* (public.ts). -/
structure PublicView where
  linkId : Str
  orderNumberStr : Str
  status : Str
  settlementStatus : Str
  expiresAt : Nat

deriving DecidableEq, Repr

/-- The view construction of GET /payment/* (public.ts): isExpired is the
comparison of the current instant with expiresAt, and the reported status is
EXPIRED when expired, else the stored status.  Computed at read time; the
store is not written. -/
def publicPaymentView (r : Row) (now : Nat) : PublicView :=
  let isExpired := decide (now > r.expiresAt)
  { linkId := r.linkId
    orderNumberStr := padStart 4 '0' (toDecString r.orderNumber)
    status := if isExpired then "EXPIRED".toList else r.status
    settlementStatus := r.settlementStatus
    expiresAt := r.expiresAt }

/-- GET /payment/* (public.ts): findUnique by linkId, then the view; 404
when no row carries the linkId. -/
def getPaymentByLinkId (s : Store) (linkId : Str) (now : Nat) :
    Option PublicView :=
  match s.find? (fun r => decide (r.linkId = linkId)) with
  | some r => some (publicPaymentView r now)
  | none => none

/-- One item of the merchant list response (GET /requests, payments.ts and
part_014). -/
structure ListViewItem where
  linkId : Str
  orderNumber : Nat
  status : Str
  originalStatus : Str
  settlementStatus : Str
  expiresAt : Nat

deriving DecidableEq, Repr

/-- The per-row transform of GET /requests: status becomes EXPIRED or ACTIVE
from the comparison with the current instant, and the stored status is
exposed as originalStatus. -/
def listItemOfRow (r : Row) (now : Nat) : ListViewItem :=
  { linkId := r.linkId
    orderNumber := r.orderNumber
    status := if now > r.expiresAt then "EXPIRED".toList else "ACTIVE".toList
    originalStatus := r.status
    settlementStatus := r.settlementStatus
    expiresAt := r.expiresAt }

/-- GET /requests (payments.ts and part_014): all rows of the merchant,
each transformed for display.  Computed at read time; the store is not
written. -/
def listPaymentRequests (s : Store) (mId : Nat) (now : Nat) : List ListViewItem :=
  (s.filter fun r => decide (r.merchantId = mId)).map (listItemOfRow · now)

deriving instance DecidableEq for Except

deriving instance Fintype for SettlementStatus

/-- The transition pairs the entity table actually permits. -/
def entityTransitionList : List (SettlementStatus × SettlementStatus) :=
  [(.PENDING, .PAID), (.PENDING, .REJECTED), (.PAID, .SETTLED),
    (.PAID, .REJECTED), (.SETTLED, .REISSUED), (.REJECTED, .REISSUED)]

/-- The committed orderNumber values for (mId, d) are exactly 1 through k. -/
def denseUpTo (s : Store) (mId : Nat) (d : Str) (k : Nat) : Prop :=
  ∀ n : Nat,
    (∃ r ∈ s, r.merchantId = mId ∧ r.orderDate = d ∧ r.orderNumber = n) ↔
    (1 ≤ n ∧ n ≤ k)

theorem digitChar_ne_slash (k : Nat) (h : k ≤ 9) : digitChar k ≠ '/' := by
  interval_cases k <;> decide

theorem digitVal_digitChar (k : Nat) (h : k ≤ 9) : digitVal (digitChar k) = k := by
  interval_cases k <;> decide

theorem slash_not_mem_toDecAux (fuel n : Nat) (hfn : n ≤ fuel) :
    '/' ∉ toDecAux fuel n := by
  induction fuel generalizing n with
  | zero =>
    intro h
    rcases List.mem_singleton.mp h with h
    exact digitChar_ne_slash n (by omega) h.symm
  | succ fuel ih =>
    rw [toDecAux]
    split
    · intro h
      rcases List.mem_singleton.mp h with h
      exact digitChar_ne_slash n (by omega) h.symm
    · intro h
      rcases List.mem_append.mp h with h | h
      · exact ih (n / 10)
          (by have hd : n / 10 < n := Nat.div_lt_self (by omega) (by decide); omega) h
      · rcases List.mem_singleton.mp h with h
        exact digitChar_ne_slash (n % 10) (by omega) h.symm

theorem slash_not_mem_toDecString (n : Nat) : '/' ∉ toDecString n :=
  slash_not_mem_toDecAux n n le_rfl

theorem slash_not_mem_formatOrderNumber (n : Nat) : '/' ∉ formatOrderNumber n := by
  intro h
  rcases List.mem_append.mp h with h | h
  · exact (by decide : ¬ ('/' = '0')) (List.eq_of_mem_replicate h)
  · exact slash_not_mem_toDecString n h

theorem parseDecimal_toDecAux (fuel n : Nat) (hfn : n ≤ fuel) :
    parseDecimal (toDecAux fuel n) = n := by
  induction fuel generalizing n with
  | zero =>
    have hn : n = 0 := by omega
    simp [toDecAux, parseDecimal, hn, digitVal_digitChar 0 (by omega)]
  | succ fuel ih =>
    rw [toDecAux]
    split
    · simp [parseDecimal, digitVal_digitChar n (by omega)]
    · have hrec := ih (n / 10)
        (by have hd : n / 10 < n := Nat.div_lt_self (by omega) (by decide); omega)
      simp only [parseDecimal, List.foldl_append] at hrec ⊢
      rw [hrec, List.foldl_cons, List.foldl_nil,
        digitVal_digitChar (n % 10) (by omega)]
      omega

theorem parseDecimal_toDecString (n : Nat) : parseDecimal (toDecString n) = n :=
  parseDecimal_toDecAux n n le_rfl

theorem parseDecimal_replicate_zero (k : Nat) (s : Str) :
    parseDecimal (List.replicate k '0' ++ s) = parseDecimal s := by
  induction k with
  | zero => rfl
  | succ k ihk =>
    simpa [parseDecimal, List.replicate_succ] using ihk

theorem parseDecimal_formatOrderNumber (n : Nat) :
    parseDecimal (formatOrderNumber n) = n := by
  rw [formatOrderNumber, padStart, parseDecimal_replicate_zero,
    parseDecimal_toDecString]

theorem splitOnSlash_slashfree (a : Str) (ha : '/' ∉ a) : splitOnSlash a = [a] := by
  induction a with
  | nil => rfl
  | cons c rest ihr =>
    rw [splitOnSlash]
    rw [if_neg (by intro h; exact ha (h ▸ List.mem_cons_self c rest))]
    rw [ihr (fun h => ha (List.mem_cons_of_mem c h))]

theorem splitOnSlash_append (a t : Str) (ha : '/' ∉ a) :
    splitOnSlash (a ++ '/' :: t) = a :: splitOnSlash t := by
  induction a with
  | nil => simp [splitOnSlash]
  | cons c rest ihr =>
    rw [List.cons_append, splitOnSlash]
    rw [if_neg (by intro h; exact ha (h ▸ List.mem_cons_self c rest))]
    rw [ihr (fun h => ha (List.mem_cons_of_mem c h))]

/-- C2, counterexample: the claim's transition list is not what the code
enforces.  The entity permits PENDING to PAID, a transition absent from the
claimed list (which instead routes payment through CLAIMED_PAID), and the
exposed PATCH settlement route accepts SETTLED to PENDING — the very change
the claim says must fail — because it validates only vocabulary membership,
never the transition. -/
theorem C2_counterexample :
    updateSettlementStatus .PENDING .PAID = .ok .PAID ∧
    patchSettlement "SETTLED".toList "PENDING".toList = .ok "PENDING".toList := by
  decide

/-- C2, amended: the entity's updateSettlementStatus permits exactly
PENDING to PAID, PENDING to REJECTED, PAID to SETTLED, PAID to REJECTED,
SETTLED to REISSUED and REJECTED to REISSUED; every other requested change
fails with an error naming the current and attempted states (in particular
SETTLED to PENDING); the chain PENDING to PAID to SETTLED succeeds in
sequence; and the HTTP PATCH route performs no transition validation at
all — it accepts any requested value from its seven-word vocabulary
regardless of the stored status. -/
theorem C2_settlement_transitions :
    (∀ s t : SettlementStatus,
      updateSettlementStatus s t = .ok t ↔ (s, t) ∈ entityTransitionList) ∧
    (∀ s t : SettlementStatus, (s, t) ∉ entityTransitionList →
      updateSettlementStatus s t = .error ⟨s, t⟩) ∧
    updateSettlementStatus .SETTLED .PENDING = .error ⟨.SETTLED, .PENDING⟩ ∧
    (updateSettlementStatus .PENDING .PAID = .ok .PAID ∧
      updateSettlementStatus .PAID .SETTLED = .ok .SETTLED) ∧
    (∀ stored requested : Str, requested ∈ settlementVocab →
      patchSettlement stored requested = .ok requested) := by
  refine ⟨by decide, by decide, by decide, by decide, ?_⟩
  intro stored requested h
  simp [patchSettlement, h]

/-- C2, witness: the route accepts CLAIMED_PAID for a SETTLED request. -/
theorem C2_settlement_transitions_witness :
    patchSettlement "SETTLED".toList "CLAIMED_PAID".toList =
      .ok "CLAIMED_PAID".toList :=
  C2_settlement_transitions.2.2.2.2 _ _ (by decide)

/-- C3: with the committed maximum orderNumber at 9999 for a merchant and
date, getNextOrderNumber (the allocator of the live creation paths) fails
with the daily-limit error and the creation persists nothing — but the
allocation step of CreatePaymentRequestUseCase.generateOrderDetails returns
candidate 10000, failing only above 99999, which contradicts the
repository's own documentation (orderNumber 1-9999, "Daily order limit
reached (9999)"). -/
theorem C3_daily_cap :
    getNextOrderNumber
        [⟨1, "20251106".toList, 9999,
          generateLinkId "m".toList "20251106".toList 9999, 5,
          "PENDING".toList, "PENDING".toList, 1762387200, 1762390800⟩]
        1 "20251106".toList = .error .dailyLimitExceeded ∧
    runCreate (some ⟨1, "m".toList, 0, 10, false, 0, none⟩)
        ⟨1, 5, some 60, "merchant".toList, none⟩
        [⟨1, "20251106".toList, 9999,
          generateLinkId "m".toList "20251106".toList 9999, 5,
          "PENDING".toList, "PENDING".toList, 1762387200, 1762390800⟩]
        [⟨1, "20251106".toList, 9999,
          generateLinkId "m".toList "20251106".toList 9999, 5,
          "PENDING".toList, "PENDING".toList, 1762387200, 1762390800⟩]
        [] 1762387200 =
      ([⟨1, "20251106".toList, 9999,
          generateLinkId "m".toList "20251106".toList 9999, 5,
          "PENDING".toList, "PENDING".toList, 1762387200, 1762390800⟩],
        [], .error .dailyLimitExceeded) ∧
    generateOrderDetailsNumber (some 9999) = .ok 10000 := by
  refine ⟨by decide, by decide, by decide⟩

/-- C6: getCurrentOrderDate evaluates the calendar date in the merchant's
timezone — at 2025-11-06T15:01:00Z (epoch 1762441260) with the Asia/Tokyo
offset of +540 minutes it returns 20251107, and the first allocation of
that local day gets orderNumber 1 — but not every creation path computes
the date this way: CreatePaymentRequestUseCase.generateOrderDetails takes
the UTC date 20251106 at the same instant, contradicting its own comment
announcing the merchant's timezone. -/
theorem C6_timezone_orderDate :
    getCurrentOrderDate 1762441260 540 = "20251107".toList ∧
    getNextOrderNumber [] 1 ("20251107".toList) = .ok 1 ∧
    generateOrderDetailsDate 1762441260 = "20251106".toList := by
  decide

/-- C7: generateLinkId produces the slug, the order date and the
zero-padded order number joined by slashes — concretely
abc123/20251106/0001 for ("abc123", "20251106", 1) — and for every slug
free of slashes, every order date free of slashes (YYYYMMDD dates are all
digits) and every orderNumber in [1, 9999], splitting the linkId at its
slash separators recovers the original triple. -/
theorem C7_linkId_roundtrip (slug orderDate : Str) (orderNumber : Nat)
    (hslug : '/' ∉ slug) (hdate : '/' ∉ orderDate)
    (h1 : 1 ≤ orderNumber) (h2 : orderNumber ≤ 9999) :
    parseLinkId (generateLinkId slug orderDate orderNumber) =
      some (slug, orderDate, orderNumber) ∧
    generateLinkId "abc123".toList "20251106".toList 1 =
      "abc123/20251106/0001".toList := by
  constructor
  · rw [parseLinkId, generateLinkId, splitOnSlash_append _ _ hslug,
      splitOnSlash_append _ _ hdate,
      splitOnSlash_slashfree _ (slash_not_mem_formatOrderNumber _)]
    simp [parseDecimal_formatOrderNumber]
  · decide

/-- C7, witness: the round trip at the concrete example triple. -/
theorem C7_linkId_roundtrip_witness :
    parseLinkId (generateLinkId "abc123".toList "20251106".toList 1) =
      some ("abc123".toList, "20251106".toList, 1) :=
  (C7_linkId_roundtrip "abc123".toList "20251106".toList 1 (by decide)
    (by decide) (by decide) (by decide)).1

/-- C8: a row whose stored status is PENDING and whose expiresAt lies
before the current instant is reported with status EXPIRED by the public
get-by-linkId view and by the merchant list transform, computed at read
time as a pure function of the stored row and the clock — no background
process has to have mutated the row. -/
theorem C8_lazy_expiry (r : Row) (now : Nat)
    (hst : r.status = "PENDING".toList) (hexp : r.expiresAt < now) :
    (publicPaymentView r now).status = "EXPIRED".toList ∧
    getPaymentByLinkId [r] r.linkId now = some (publicPaymentView r now) ∧
    (listItemOfRow r now).status = "EXPIRED".toList := by
  refine ⟨?_, ?_, ?_⟩
  · simp [publicPaymentView, hexp]
  · simp [getPaymentByLinkId, List.find?]
  · simp [listItemOfRow, hexp]

/-- C8, witness: an expired pending row read at a later instant. -/
theorem C8_lazy_expiry_witness :
    (publicPaymentView
        ⟨1, "20251106".toList, 1,
          generateLinkId "m".toList "20251106".toList 1, 5,
          "PENDING".toList, "PENDING".toList, 0, 100⟩ 200).status =
      "EXPIRED".toList :=
  (C8_lazy_expiry _ 200 (by decide) (by decide)).1

/-- C10, counterexample: the status shown by the public get-by-linkId view
is not derived solely from comparing the clock with expiresAt — two rows
identical except for their stored status, both read before expiry, are
shown with different statuses (the stored CANCELLED and PENDING values
respectively), so the stored status field is not ignored. -/
theorem C10_counterexample :
    (publicPaymentView
        ⟨1, "20251106".toList, 1,
          generateLinkId "m".toList "20251106".toList 1, 5,
          "CANCELLED".toList, "PENDING".toList, 0, 100⟩ 50).status =
      "CANCELLED".toList ∧
    (publicPaymentView
        ⟨1, "20251106".toList, 1,
          generateLinkId "m".toList "20251106".toList 1, 5,
          "PENDING".toList, "PENDING".toList, 0, 100⟩ 50).status =
      "PENDING".toList := by
  decide

/-- C10, amended: past expiresAt both read endpoints report EXPIRED
regardless of the stored status (including stored CANCELLED or PAID); before
expiresAt the merchant list endpoint reports ACTIVE for every request —
including canceled ones — exposing the stored value only as the separate
originalStatus field, while the public get-by-linkId view reports the
stored status itself. -/
theorem C10_read_status (r : Row) (now : Nat) :
    (r.expiresAt < now →
      (publicPaymentView r now).status = "EXPIRED".toList ∧
      (listItemOfRow r now).status = "EXPIRED".toList) ∧
    (¬ r.expiresAt < now →
      (publicPaymentView r now).status = r.status ∧
      (listItemOfRow r now).status = "ACTIVE".toList) ∧
    (listItemOfRow r now).originalStatus = r.status := by
  refine ⟨fun h => ⟨?_, ?_⟩, fun h => ⟨?_, ?_⟩, ?_⟩ <;>
    simp [publicPaymentView, listItemOfRow, *]

/-- C10, witness: a canceled, unexpired row is shown as CANCELLED by the
public view. -/
theorem C10_read_status_witness :
    (publicPaymentView
        ⟨1, "20251106".toList, 1,
          generateLinkId "m".toList "20251106".toList 1, 5,
          "CANCELLED".toList, "PENDING".toList, 0, 100⟩ 50).status =
      "CANCELLED".toList :=
  ((C10_read_status _ 50).2.1 (by decide)).1

/-- C4: the quota check of part_017 behaves as claimed over the window the
code computes — at least the limit many rows with createdAt in
[monthStartUtc, nextMonthStartUtc) fail the attempt with the monthly-quota
error and persist nothing, and a zero limit skips the check entirely so no
creation can fail with that error — but that window is not the
merchant-timezone calendar month the claim requires: nextMonthStartUtc adds
one month to the UTC representation of the month start, which for
Asia/Tokyo in March 2025 ends the window at 2025-03-28T15:00Z (epoch
1743174000) instead of the true next local month start 2025-04-01T00:00+09
= 2025-03-31T15:00Z (epoch 1743433200).  The last conjunct evaluates the
code at the failing input: a Tokyo merchant limited to one link per month,
holding a row created at local March 29 noon (epoch 1743217200, inside the
merchant-timezone calendar month), nevertheless succeeds in creating
another request on local March 30, because that row falls outside the
clamped window. -/
theorem C4_monthly_quota (m : Merchant) (input : CreateInput) (obs cur : Store)
    (rl : RLStore) (now : Nat)
    (ham : 0 < input.amountFiat) (hsus : m.suspended = false)
    (hrate : rateRejected input m rl now = false)
    (hexp : effectiveExpiry input m ∈ allowedExpiries)
    (hlim : 0 < m.paymentLinkMonthlyLimit)
    (hcount : m.paymentLinkMonthlyLimit ≤
      monthlyCount cur input.merchantId now m.tzOffsetMin) :
    runCreate (some m) input obs cur rl now =
      (cur, rl, .error (.monthlyQuotaExceeded m.paymentLinkMonthlyLimit)) ∧
    (∀ (m0 : Merchant) (input0 : CreateInput) (obs0 cur0 : Store) (rl0 : RLStore)
        (now0 : Nat) (k : Nat), m0.paymentLinkMonthlyLimit = 0 →
      (runCreate (some m0) input0 obs0 cur0 rl0 now0).2.2 ≠
        .error (.monthlyQuotaExceeded k)) ∧
    (monthWindow 1743303600 540 = (1740754800, 1743174000) ∧
      (daysFromCivil 2025 4 1 : Int) * 86400 - 540 * 60 = 1743433200 ∧
      ((1740754800 : Int) ≤ 1743217200 ∧ (1743217200 : Int) < 1743433200) ∧
      (runCreate (some ⟨1, "m".toList, 540, 10, false, 1, none⟩)
          ⟨1, 5, some 60, "merchant".toList, none⟩
          [⟨1, "20250329".toList, 1,
            generateLinkId "m".toList "20250329".toList 1, 5,
            "PENDING".toList, "PENDING".toList, 1743217200, 1743220800⟩]
          [⟨1, "20250329".toList, 1,
            generateLinkId "m".toList "20250329".toList 1, 5,
            "PENDING".toList, "PENDING".toList, 1743217200, 1743220800⟩]
          [] 1743303600).2.2 =
        .ok ⟨1, "20250330".toList, 1,
          generateLinkId "m".toList "20250330".toList 1, 5,
          "PENDING".toList, "PENDING".toList, 1743303600, 1743307200⟩) := by
  refine ⟨?_, ?_, by decide, by decide, by decide, by decide⟩
  · have htx : createTx m input obs cur now (effectiveExpiry input m) =
        .error (.monthlyQuotaExceeded m.paymentLinkMonthlyLimit) := by
      rw [createTx, if_pos ⟨hlim, hcount⟩]
    rw [runCreate, createPaymentRequest, if_neg (by omega)]
    simp only [hsus, Bool.false_eq_true, if_false, hrate,
      if_neg (not_not_intro hexp), htx]
  · intro m0 input0 obs0 cur0 rl0 now0 k h0
    have htx0 : ∀ e, createTx m0 input0 obs0 cur0 now0
        (effectiveExpiry input0 m0) = .error e →
        e ≠ .monthlyQuotaExceeded k := by
      intro e he
      rw [createTx, if_neg (by omega)] at he
      rcases hg : getNextOrderNumber obs0 input0.merchantId
          (getCurrentOrderDate now0 m0.tzOffsetMin) with e2 | n
      · simp only [hg] at he
        rw [getNextOrderNumber] at hg
        split at hg
        · cases hg
          cases he
          intro hc
          cases hc
        · cases hg
      · simp only [hg] at he
        rcases hi : insertRow cur0 (buildRow m0 input0
            (getCurrentOrderDate now0 m0.tzOffsetMin) n now0
            (effectiveExpiry input0 m0)) with e3 | s3
        · simp only [hi] at he
          rw [insertRow] at hi
          split at hi
          · cases hi
            cases he
            intro hc
            cases hc
          · cases hi
        · simp only [hi] at he
          cases he
    rw [runCreate]
    split
    · simp
    next e heq =>
      intro hc
      cases hc
      rw [createPaymentRequest] at heq
      split at heq
      · cases heq
      · split at heq
        · cases heq
        · split at heq
          · cases heq
          · split at heq
            · cases heq
            · split at heq
              next e2 htxeq =>
                cases heq
                exact htx0 _ htxeq rfl
              next => cases heq

/-- C4, witness: a merchant limited to one link per month, already holding
one row in the current Tokyo-timezone month, fails on the next attempt. -/
theorem C4_monthly_quota_witness :
    runCreate (some ⟨1, "m".toList, 540, 10, false, 1, none⟩)
        ⟨1, 5, some 60, "merchant".toList, none⟩
        [⟨1, "20251107".toList, 1,
          generateLinkId "m".toList "20251107".toList 1, 5,
          "PENDING".toList, "PENDING".toList, 1762441260, 1762444860⟩]
        [⟨1, "20251107".toList, 1,
          generateLinkId "m".toList "20251107".toList 1, 5,
          "PENDING".toList, "PENDING".toList, 1762441260, 1762444860⟩]
        [] 1762441300 =
      ([⟨1, "20251107".toList, 1,
          generateLinkId "m".toList "20251107".toList 1, 5,
          "PENDING".toList, "PENDING".toList, 1762441260, 1762444860⟩],
        [], .error (.monthlyQuotaExceeded 1)) :=
  (C4_monthly_quota _ _ _ _ _ _ (by decide) (by decide) (by decide)
    (by decide) (by decide) (by decide)).1

/-- C5, amended: when the insert hits a uniqueness violation on linkId or
on (merchantId, orderDate, orderNumber), createPaymentRequest surfaces the
order-conflict error to the caller immediately, on the single attempt the
code makes, with both stores unchanged; the message asks the caller to try
again, there is no internal retry loop. -/
theorem C5_conflict_no_retry (m : Merchant) (input : CreateInput)
    (obs cur : Store) (rl : RLStore) (now : Nat) (n : Nat)
    (ham : 0 < input.amountFiat) (hsus : m.suspended = false)
    (hrate : rateRejected input m rl now = false)
    (hexp : effectiveExpiry input m ∈ allowedExpiries)
    (hq : ¬ (0 < m.paymentLinkMonthlyLimit ∧ m.paymentLinkMonthlyLimit ≤
      monthlyCount cur input.merchantId now m.tzOffsetMin))
    (hn : getNextOrderNumber obs input.merchantId
      (getCurrentOrderDate now m.tzOffsetMin) = .ok n)
    (hconf : violatesUnique cur (buildRow m input
      (getCurrentOrderDate now m.tzOffsetMin) n now
      (effectiveExpiry input m)) = true) :
    runCreate (some m) input obs cur rl now = (cur, rl, .error .orderConflict) := by
  have htx : createTx m input obs cur now (effectiveExpiry input m) =
      .error .orderConflict := by
    rw [createTx, if_neg hq]
    simp only [hn]
    rw [insertRow, if_pos hconf]
  rw [runCreate, createPaymentRequest, if_neg (by omega)]
  simp only [hsus, Bool.false_eq_true, if_false, hrate,
    if_neg (not_not_intro hexp), htx]

/-- C5, counterexample: the creation unit is not retried internally.  In a
state where the allocation read observed an empty table but another row
(merchant 1, date 19700101, orderNumber 1) was committed before the insert,
the call surfaces the order-conflict error at once — even though a single
internal retry with a fresh read of the maximum would have succeeded with
orderNumber 2, as the second call shows. -/
theorem C5_counterexample :
    runCreate (some ⟨1, "m".toList, 0, 10, false, 0, none⟩)
        ⟨1, 5, some 60, "merchant".toList, none⟩
        []
        [⟨1, "19700101".toList, 1,
          generateLinkId "m".toList "19700101".toList 1, 5,
          "PENDING".toList, "PENDING".toList, 0, 3600⟩]
        [] 0 =
      ([⟨1, "19700101".toList, 1,
          generateLinkId "m".toList "19700101".toList 1, 5,
          "PENDING".toList, "PENDING".toList, 0, 3600⟩],
        [], .error .orderConflict) ∧
    (runCreate (some ⟨1, "m".toList, 0, 10, false, 0, none⟩)
        ⟨1, 5, some 60, "merchant".toList, none⟩
        [⟨1, "19700101".toList, 1,
          generateLinkId "m".toList "19700101".toList 1, 5,
          "PENDING".toList, "PENDING".toList, 0, 3600⟩]
        [⟨1, "19700101".toList, 1,
          generateLinkId "m".toList "19700101".toList 1, 5,
          "PENDING".toList, "PENDING".toList, 0, 3600⟩]
        [] 0).2.2 =
      .ok ⟨1, "19700101".toList, 2,
        generateLinkId "m".toList "19700101".toList 2, 5,
        "PENDING".toList, "PENDING".toList, 0, 3600⟩ := by
  refine ⟨by decide, by decide⟩

theorem C5_conflict_no_retry_witness :
    runCreate (some ⟨1, "m".toList, 0, 10, false, 0, none⟩)
        ⟨1, 5, some 60, "merchant".toList, none⟩
        []
        [⟨1, "19700101".toList, 1,
          generateLinkId "m".toList "19700101".toList 1, 5,
          "PENDING".toList, "PENDING".toList, 0, 3600⟩]
        [] 0 =
      ([⟨1, "19700101".toList, 1,
          generateLinkId "m".toList "19700101".toList 1, 5,
          "PENDING".toList, "PENDING".toList, 0, 3600⟩],
        [], .error .orderConflict) :=
  C5_conflict_no_retry _ _ _ _ _ _ 1 (by decide) (by decide) (by decide)
    (by decide) (by decide) (by decide) (by decide)

theorem rlLookup_rlSet (rl : RLStore) (key : Nat × Str) (e : RLEntry) :
    rlLookup (rlSet rl key e) key = some e := by
  induction rl with
  | nil => simp [rlSet, rlLookup]
  | cons kv rest ih =>
    rw [rlSet]
    split
    · rw [rlLookup, if_pos rfl]
    next h =>
      rw [rlLookup, if_neg h]
      exact ih

/-- C9: with maxBuyerOrdersPerHour 1 and an absent counter key, a
successful buyer creation leaves the (merchantId, sourceAddress) counter at
1 with a fixed one-hour expiry starting at that first request; every
attempt from the same pair before the window ends is rejected with the
rate-limit error by the read-only canBuyerCreateOrder check evaluated
before the transaction, with both stores unchanged; once the window has
elapsed the check allows again; and any failed creation, whatever the
error, leaves the counter store and the table exactly as they were — the
counter is incremented only after the creation transaction commits. -/
theorem C9_buyer_rate_limit (m : Merchant) (ip : Str) (input : CreateInput)
    (obs cur s1 : Store) (rl rl1 : RLStore) (t : Nat) (row : Row)
    (hmax : m.maxBuyerOrdersPerHour = 1)
    (hip : input.buyerIp = some ip)
    (hby : input.createdBy = "buyer".toList)
    (hkey : rlLookup rl (m.id, ip) = none)
    (h1 : runCreate (some m) input obs cur rl t = (s1, rl1, .ok row)) :
    rl1 = rlSet rl (m.id, ip) ⟨1, t + 3600⟩ ∧
    (∀ t2, t2 < t + 3600 → ∀ obs2 cur2,
      runCreate (some m) input obs2 cur2 rl1 t2 =
        (cur2, rl1, .error .rateLimitExceeded)) ∧
    (∀ t3, t + 3600 ≤ t3 →
      (canBuyerCreateOrder rl1 m.id ip m.maxBuyerOrdersPerHour t3).1 = true) ∧
    (∀ (mq : Option Merchant) (i0 : CreateInput) (o0 c0 : Store) (r0 : RLStore)
        (t0 : Nat) (e : CreateErr),
      (runCreate mq i0 o0 c0 r0 t0).2.2 = .error e →
      (runCreate mq i0 o0 c0 r0 t0).2.1 = r0 ∧
        (runCreate mq i0 o0 c0 r0 t0).1 = c0) := by
  rcases hcp : createPaymentRequest (some m) input obs cur rl t with e | out
  · rw [runCreate, hcp] at h1
    simp at h1
  rw [runCreate, hcp] at h1
  rw [createPaymentRequest] at hcp
  by_cases ha : input.amountFiat ≤ 0
  · rw [if_pos ha] at hcp; cases hcp
  rw [if_neg ha] at hcp
  by_cases hs : m.suspended = true
  · rw [if_pos hs] at hcp; cases hcp
  rw [if_neg hs] at hcp
  by_cases hr : rateRejected input m rl t = true
  · rw [if_pos hr] at hcp; cases hcp
  rw [if_neg hr] at hcp
  by_cases hex : effectiveExpiry input m ∉ allowedExpiries
  · rw [if_pos hex] at hcp; cases hcp
  rw [if_neg hex] at hcp
  rcases htx : createTx m input obs cur t (effectiveExpiry input m) with e | txr
  · rw [htx] at hcp; cases hcp
  rw [htx] at hcp
  cases hcp
  have hrl1 : rl1 = rlSet rl (m.id, ip) ⟨1, t + 3600⟩ := by
    have : rl1 = rlAfter input m rl t := by
      simp only [Prod.mk.injEq] at h1
      exact h1.2.1.symm
    rw [this]
    simp only [rlAfter, hip]
    rw [if_pos hby, recordBuyerOrder]
    simp only [hkey]
  refine ⟨hrl1, ?_, ?_, ?_⟩
  · intro t2 ht2 obs2 cur2
    have hcan : (canBuyerCreateOrder rl1 m.id ip m.maxBuyerOrdersPerHour t2).1 =
        false := by
      rw [hrl1, canBuyerCreateOrder, rlLookup_rlSet, hmax]
      simp only [if_pos ht2]
      norm_num
    have hrej : rateRejected input m rl1 t2 = true := by
      rw [rateRejected, hip]
      simp [hby, hcan]
    rw [runCreate, createPaymentRequest, if_neg ha]
    simp only [hs, Bool.false_eq_true, if_false, hrej, if_true]
  · intro t3 ht3
    rw [hrl1, canBuyerCreateOrder, rlLookup_rlSet, hmax]
    have : ¬ (t3 < t + 3600) := by omega
    simp [this]
  · intro mq i0 o0 c0 r0 t0 e
    rw [runCreate]
    split <;> simp

/-- C9, witness: after a successful buyer creation at time 0, the same
buyer is rejected at time 10 with nothing persisted. -/
theorem C9_buyer_rate_limit_witness :
    runCreate (some ⟨1, "m".toList, 0, 1, false, 0, none⟩)
        ⟨1, 5, some 60, "buyer".toList, some "1.2.3.4".toList⟩
        [] []
        [((1, "1.2.3.4".toList), ⟨1, 3600⟩)] 10 =
      ([], [((1, "1.2.3.4".toList), ⟨1, 3600⟩)], .error .rateLimitExceeded) :=
  (C9_buyer_rate_limit ⟨1, "m".toList, 0, 1, false, 0, none⟩ "1.2.3.4".toList
    ⟨1, 5, some 60, "buyer".toList, some "1.2.3.4".toList⟩
    [] []
    [⟨1, "19700101".toList, 1,
      generateLinkId "m".toList "19700101".toList 1, 5,
      "PENDING".toList, "PENDING".toList, 0, 3600⟩]
    [] [((1, "1.2.3.4".toList), ⟨1, 3600⟩)] 0
    ⟨1, "19700101".toList, 1,
      generateLinkId "m".toList "19700101".toList 1, 5,
      "PENDING".toList, "PENDING".toList, 0, 3600⟩
    (by decide) (by decide) (by decide) (by decide) (by decide)).2.1
    10 (by decide) [] []

theorem foldr_max_le (l : List Nat) (b : Nat) (h : ∀ x ∈ l, x ≤ b) :
    l.foldr max 0 ≤ b := by
  induction l with
  | nil => simp
  | cons a l ih =>
    simp only [List.foldr_cons, max_le_iff]
    exact ⟨h a (List.mem_cons_self a l),
      ih fun x hx => h x (List.mem_cons_of_mem a hx)⟩

theorem le_foldr_max (l : List Nat) (x : Nat) (hx : x ∈ l) :
    x ≤ l.foldr max 0 := by
  induction l with
  | nil => cases hx
  | cons a l ih =>
    rcases List.mem_cons.mp hx with h | h
    · subst h
      simp [le_max_iff]
    · simp only [List.foldr_cons, le_max_iff]
      exact Or.inr (ih h)

theorem mem_orderNums (s : Store) (mId : Nat) (d : Str) (n : Nat) :
    (n ∈ (s.filter fun r => decide (r.merchantId = mId ∧ r.orderDate = d)).map
      Row.orderNumber) ↔
    ∃ r ∈ s, r.merchantId = mId ∧ r.orderDate = d ∧ r.orderNumber = n := by
  simp only [List.mem_map, List.mem_filter, decide_eq_true_eq]
  constructor
  · rintro ⟨r, ⟨hr, h1, h2⟩, h3⟩
    exact ⟨r, hr, h1, h2, h3⟩
  · rintro ⟨r, hr, h1, h2, h3⟩
    exact ⟨r, ⟨hr, h1, h2⟩, h3⟩

theorem maxOrderNumber_dense (s : Store) (mId : Nat) (d : Str) (k : Nat)
    (hd : denseUpTo s mId d k) :
    maxOrderNumber s mId d = if k = 0 then none else some k := by
  have hmem : ∀ n : Nat,
      (n ∈ (s.filter fun r => decide (r.merchantId = mId ∧ r.orderDate = d)).map
        Row.orderNumber) ↔ 1 ≤ n ∧ n ≤ k :=
    fun n => (mem_orderNums s mId d n).trans (hd n)
  by_cases hk : k = 0
  · subst hk
    have hnil : (s.filter fun r => decide (r.merchantId = mId ∧ r.orderDate = d)).map
        Row.orderNumber = [] := by
      rw [List.eq_nil_iff_forall_not_mem]
      intro n hn
      have := (hmem n).mp hn
      omega
    unfold maxOrderNumber
    rw [hnil]
    rfl
  · have hkmem := (hmem k).mpr ⟨by omega, le_rfl⟩
    have hne : ((s.filter fun r => decide (r.merchantId = mId ∧ r.orderDate = d)).map
        Row.orderNumber).isEmpty = false := by
      rcases hcase : (s.filter fun r => decide (r.merchantId = mId ∧ r.orderDate = d)).map
          Row.orderNumber with _ | ⟨a, t⟩
      · rw [hcase] at hkmem
        cases hkmem
      · rw [hcase]
        rfl
    have hfold : ((s.filter fun r => decide (r.merchantId = mId ∧ r.orderDate = d)).map
        Row.orderNumber).foldr max 0 = k := by
      refine le_antisymm ?_ ?_
      · exact foldr_max_le _ k fun x hx => ((hmem x).mp hx).2
      · exact le_foldr_max _ k hkmem
    unfold maxOrderNumber
    rw [if_neg hk]
    simp only [hne, Bool.false_eq_true, if_false, hfold]

theorem getNextOrderNumber_dense (s : Store) (mId : Nat) (d : Str) (j : Nat)
    (hd : denseUpTo s mId d j) (hcap : j + 1 ≤ 9999) :
    getNextOrderNumber s mId d = .ok (j + 1) := by
  rw [getNextOrderNumber, maxOrderNumber_dense s mId d j hd]
  by_cases hj : j = 0
  · subst hj
    simp
  · rw [if_neg hj]
    show (if j + 1 > 9999 then (Except.error CreateErr.dailyLimitExceeded)
      else Except.ok (j + 1)) = Except.ok (j + 1)
    rw [if_neg (by omega)]

theorem violatesUnique_iff (s : Store) (row : Row) :
    violatesUnique s row = true ↔
    ∃ r ∈ s, r.linkId = row.linkId ∨
      (r.merchantId = row.merchantId ∧ r.orderDate = row.orderDate ∧
        r.orderNumber = row.orderNumber) := by
  simp [violatesUnique, List.any_eq_true, decide_eq_true_eq]

theorem denseUpTo_append (s : Store) (mId : Nat) (d : Str) (k : Nat) (row : Row)
    (hd : denseUpTo s mId d k)
    (hm : row.merchantId = mId) (hdate : row.orderDate = d)
    (hnum : row.orderNumber = k + 1) :
    denseUpTo (s ++ [row]) mId d (k + 1) := by
  intro n
  constructor
  · rintro ⟨r, hr, h1, h2, h3⟩
    rcases List.mem_append.mp hr with hr | hr
    · have := (hd n).mp ⟨r, hr, h1, h2, h3⟩
      omega
    · rcases List.mem_singleton.mp hr with rfl
      omega
  · intro hn
    by_cases hnk : n ≤ k
    · obtain ⟨r, hr, hprops⟩ := (hd n).mpr ⟨hn.1, hnk⟩
      exact ⟨r, List.mem_append.mpr (Or.inl hr), hprops⟩
    · exact ⟨row, List.mem_append.mpr (Or.inr (List.mem_singleton.mpr rfl)),
        hm, hdate, by omega⟩

theorem runCreate_tx_error (m : Merchant) (input : CreateInput) (obs cur : Store)
    (rl : RLStore) (now : Nat) (e : CreateErr)
    (ham : 0 < input.amountFiat) (hsus : m.suspended = false)
    (hrate : rateRejected input m rl now = false)
    (hexp : effectiveExpiry input m ∈ allowedExpiries)
    (htx : createTx m input obs cur now (effectiveExpiry input m) = .error e) :
    runCreate (some m) input obs cur rl now = (cur, rl, .error e) := by
  rw [runCreate, createPaymentRequest, if_neg (by omega)]
  simp only [hsus, Bool.false_eq_true, if_false, hrate,
    if_neg (not_not_intro hexp), htx]

theorem runCreate_tx_ok (m : Merchant) (input : CreateInput) (obs cur : Store)
    (rl : RLStore) (now : Nat) (txr : Store × Row)
    (ham : 0 < input.amountFiat) (hsus : m.suspended = false)
    (hrate : rateRejected input m rl now = false)
    (hexp : effectiveExpiry input m ∈ allowedExpiries)
    (htx : createTx m input obs cur now (effectiveExpiry input m) = .ok txr) :
    runCreate (some m) input obs cur rl now =
      (txr.1, rlAfter input m rl now, .ok txr.2) := by
  rw [runCreate, createPaymentRequest, if_neg (by omega)]
  simp only [hsus, Bool.false_eq_true, if_false, hrate,
    if_neg (not_not_intro hexp), htx]

/-- C1: orderNumber is dense per (merchantId, orderDate) among committed
rows.  If the committed rows for the pair carry exactly the numbers 1..k
and a creation's findFirst read observed a (possibly earlier) state
carrying exactly 1..j, then: with a fresh read (j = k) the creation
succeeds, the persisted row is assigned the previous maximum plus one
(k + 1, hence 1 for the first creation of the day), and the committed set
becomes exactly 1..k+1 — so any sequence of N successful creations yields
exactly the set 1..N; and with a stale read (j < k, the state a concurrent
creation raced ahead of) the insert violates the uniqueness constraint and
fails with the order-conflict error, persisting nothing, so no two
creations can observe and persist the same number.  The hlink hypothesis
records that a row carrying the candidate linkId is the same
(merchantId, orderDate, orderNumber) triple, which holds because linkId
embeds the merchant slug, the date and the number bijectively. -/
theorem C1_dense_allocation (m : Merchant) (input : CreateInput)
    (obs cur : Store) (rl : RLStore) (now j k : Nat)
    (ham : 0 < input.amountFiat) (hsus : m.suspended = false)
    (hrate : rateRejected input m rl now = false)
    (hexp : effectiveExpiry input m ∈ allowedExpiries)
    (hq : m.paymentLinkMonthlyLimit = 0)
    (hobs : denseUpTo obs input.merchantId
      (getCurrentOrderDate now m.tzOffsetMin) j)
    (hcur : denseUpTo cur input.merchantId
      (getCurrentOrderDate now m.tzOffsetMin) k)
    (hjk : j ≤ k) (hcap : k < 9999)
    (hlink : ∀ r ∈ cur,
      r.linkId = generateLinkId m.slug (getCurrentOrderDate now m.tzOffsetMin)
        (j + 1) →
      r.merchantId = input.merchantId ∧
        r.orderDate = getCurrentOrderDate now m.tzOffsetMin ∧
        r.orderNumber = j + 1) :
    (j = k →
      runCreate (some m) input obs cur rl now =
        (cur ++ [buildRow m input (getCurrentOrderDate now m.tzOffsetMin)
            (k + 1) now (effectiveExpiry input m)],
          rlAfter input m rl now,
          .ok (buildRow m input (getCurrentOrderDate now m.tzOffsetMin)
            (k + 1) now (effectiveExpiry input m))) ∧
      denseUpTo (cur ++ [buildRow m input (getCurrentOrderDate now m.tzOffsetMin)
          (k + 1) now (effectiveExpiry input m)])
        input.merchantId (getCurrentOrderDate now m.tzOffsetMin) (k + 1) ∧
      (buildRow m input (getCurrentOrderDate now m.tzOffsetMin) (k + 1) now
          (effectiveExpiry input m)).orderNumber = k + 1) ∧
    (j < k →
      runCreate (some m) input obs cur rl now = (cur, rl, .error .orderConflict)) := by
  have hnext : getNextOrderNumber obs input.merchantId
      (getCurrentOrderDate now m.tzOffsetMin) = .ok (j + 1) :=
    getNextOrderNumber_dense _ _ _ j hobs (by omega)
  constructor
  · rintro rfl
    have hviol : ¬ (violatesUnique cur (buildRow m input
        (getCurrentOrderDate now m.tzOffsetMin) (j + 1) now
        (effectiveExpiry input m)) = true) := by
      rw [violatesUnique_iff]
      rintro ⟨r, hr, hcase | ⟨h1, h2, h3⟩⟩
      · obtain ⟨hm1, hm2, hm3⟩ := hlink r hr hcase
        have := (hcur (j + 1)).mp ⟨r, hr, hm1, hm2, hm3⟩
        omega
      · have := (hcur (j + 1)).mp ⟨r, hr, h1, h2, h3⟩
        omega
    have htx : createTx m input obs cur now (effectiveExpiry input m) =
        .ok (cur ++ [buildRow m input (getCurrentOrderDate now m.tzOffsetMin)
          (j + 1) now (effectiveExpiry input m)],
          buildRow m input (getCurrentOrderDate now m.tzOffsetMin) (j + 1) now
            (effectiveExpiry input m)) := by
      rw [createTx, if_neg (by simp [hq])]
      simp only [hnext]
      rw [insertRow, if_neg hviol]
    refine ⟨runCreate_tx_ok m input obs cur rl now _ ham hsus hrate hexp htx, ?_, rfl⟩
    exact denseUpTo_append cur input.merchantId
      (getCurrentOrderDate now m.tzOffsetMin) j _ hcur rfl rfl rfl
  · intro hjlt
    have hviol : violatesUnique cur (buildRow m input
        (getCurrentOrderDate now m.tzOffsetMin) (j + 1) now
        (effectiveExpiry input m)) = true := by
      rw [violatesUnique_iff]
      obtain ⟨r, hr, h1, h2, h3⟩ := (hcur (j + 1)).mpr ⟨by omega, by omega⟩
      exact ⟨r, hr, Or.inr ⟨h1, h2, h3⟩⟩
    refine runCreate_tx_error m input obs cur rl now _ ham hsus hrate hexp ?_
    rw [createTx, if_neg (by simp [hq])]
    simp only [hnext]
    rw [insertRow, if_pos hviol]

/-- An empty table is dense up to 0. -/
theorem denseUpTo_nil (mId : Nat) (d : Str) : denseUpTo [] mId d 0 := by
  intro n
  constructor
  · rintro ⟨r, hr, _⟩
    cases hr
  · intro hn
    omega

/-- C1, witness: the first creation for a merchant and day is assigned
orderNumber 1. -/
theorem C1_dense_allocation_witness :
    runCreate (some ⟨1, "m".toList, 0, 10, false, 0, none⟩)
        ⟨1, 5, some 60, "merchant".toList, none⟩ [] [] [] 0 =
      ([buildRow ⟨1, "m".toList, 0, 10, false, 0, none⟩
          ⟨1, 5, some 60, "merchant".toList, none⟩
          (getCurrentOrderDate 0 (0 : Int)) 1 0
          (effectiveExpiry ⟨1, 5, some 60, "merchant".toList, none⟩
            ⟨1, "m".toList, 0, 10, false, 0, none⟩)],
        rlAfter ⟨1, 5, some 60, "merchant".toList, none⟩
          ⟨1, "m".toList, 0, 10, false, 0, none⟩ [] 0,
        .ok (buildRow ⟨1, "m".toList, 0, 10, false, 0, none⟩
          ⟨1, 5, some 60, "merchant".toList, none⟩
          (getCurrentOrderDate 0 (0 : Int)) 1 0
          (effectiveExpiry ⟨1, 5, some 60, "merchant".toList, none⟩
            ⟨1, "m".toList, 0, 10, false, 0, none⟩))) :=
  ((C1_dense_allocation ⟨1, "m".toList, 0, 10, false, 0, none⟩
    ⟨1, 5, some 60, "merchant".toList, none⟩ [] [] [] 0 0 0
    (by decide) (by decide) (by decide) (by decide) rfl
    (denseUpTo_nil 1 (getCurrentOrderDate 0 (0 : Int)))
    (denseUpTo_nil 1 (getCurrentOrderDate 0 (0 : Int)))
    le_rfl (by omega)
    (by intro r hr; cases hr)).1 rfl).1
